import Mathlib

/-!
Verification development for the pmo orchestration engine: the staged-task
synchronization and promotion pipeline (SyncAgent, ReviewAgent,
EnrichmentAgent), the flow executor (AgentManager) and the API boundary
(Orchestrator).  Definitions are shallow embeddings of the TypeScript
source; timestamps are modelled as natural-number ticks, the D1 tables
as lists of rows, and randomly generated UUIDs as explicit parameters.
-/

namespace PMO

/-- The sync_status column of staging_tasks (migration 002 and the
StagingTask interface): pending, enriched, promoted or error. -/
inductive SyncStatus where
  | pending
  | enriched
  | promoted
  | error
deriving DecidableEq, Repr

/-- One row of the staging_tasks table (migration 002), extended with the
optional enrichment columns written by ReviewAgent.updateStagedTask and
declared on the shared StagingTask interface.  The primary key is id; the
table has no other uniqueness constraint. -/
structure StagingRow where
  id : String
  clickup_task_id : String
  project_id : String
  title : String
  description : String
  status : String
  priority : Nat
  assignees : List String
  tags : List String
  due_date : Option String
  created_at : Nat
  updated_at : Nat
  sync_status : SyncStatus
  unit_tests : List String := []
  effort_estimate : Nat := 0
  success_criteria : List String := []
  dependencies : List String := []
deriving DecidableEq, Repr

/-- A remote ClickUp task as consumed by SyncAgent.stageTask. -/
structure ClickUpTask where
  id : String
  name : String
  description : Option String
  status : String
  priority : Nat
  assignees : List String
  tags : List String
  due_date : Option String
deriving DecidableEq, Repr

/-- SQLite INSERT OR REPLACE against staging_tasks: the only constraint on
the table is the primary key id, so exactly the rows sharing the new id
are replaced. -/
def insertOrReplaceStaging (row : StagingRow) (db : List StagingRow) : List StagingRow :=
  db.filter (fun r => r.id ≠ row.id) ++ [row]

/-- SyncAgent.stageTask: builds a StagingRow from the remote task with a
freshly generated UUID as id, sync_status pending, both timestamps set to
now, and runs INSERT OR REPLACE on staging_tasks. -/
def stageTask (task : ClickUpTask) (projectId : String) (freshId : String) (now : Nat)
    (db : List StagingRow) : List StagingRow :=
  insertOrReplaceStaging
    { id := freshId
      clickup_task_id := task.id
      project_id := projectId
      title := task.name
      description := task.description.getD ""
      status := task.status
      priority := task.priority
      assignees := task.assignees
      tags := task.tags
      due_date := task.due_date
      created_at := now
      updated_at := now
      sync_status := SyncStatus.pending } db

/-- The task-staging loop of SyncAgent.syncProjectById: stages each fetched
remote task in order, each call drawing a fresh UUID (paired with the task
here since the generator is random). -/
def stageTasks (tasks : List (ClickUpTask × String)) (projectId : String) (now : Nat)
    (db : List StagingRow) : List StagingRow :=
  tasks.foldl (fun acc tp => stageTask tp.1 projectId tp.2 now acc) db

/-- Number of staging_tasks rows for one (clickup_task_id, project_id)
pair, the natural identity of a staged task. -/
def stagingCountFor (extId projId : String) (db : List StagingRow) : Nat :=
  (db.filter (fun r => r.clickup_task_id = extId ∧ r.project_id = projId)).length

/-- The enrichment payload ReviewAgent.promoteTask serializes into the
enriched_data column of project_tasks. -/
structure EnrichedPayload where
  unit_tests : List String
  effort_estimate : Nat
  dependencies : List String
  success_criteria : List String
deriving DecidableEq, Repr

/-- One row of the project_tasks table (migration 002).  The primary key
is id; the table has no uniqueness constraint on
(clickup_task_id, project_id), only a non-unique index. -/
structure ProjectRow where
  id : String
  clickup_task_id : String
  project_id : String
  title : String
  description : String
  status : String
  priority : Nat
  assignees : List String
  tags : List String
  due_date : Option String
  enriched_data : EnrichedPayload
  created_at : Nat
  updated_at : Nat
deriving DecidableEq, Repr

/-- ReviewAgent.promoteTask: builds a ProjectTask with a freshly generated
UUID and runs a plain INSERT into project_tasks.  With a fresh primary key
the insert always appends a new row. -/
def promoteTask (task : StagingRow) (freshId : String) (now : Nat)
    (db : List ProjectRow) : List ProjectRow :=
  db ++
    [{ id := freshId
       clickup_task_id := task.clickup_task_id
       project_id := task.project_id
       title := task.title
       description := task.description
       status := task.status
       priority := task.priority
       assignees := task.assignees
       tags := task.tags
       due_date := task.due_date
       enriched_data :=
         { unit_tests := task.unit_tests
           effort_estimate := task.effort_estimate
           dependencies := task.dependencies
           success_criteria := task.success_criteria }
       created_at := now
       updated_at := now }]

/-- Number of project_tasks rows for one (clickup_task_id, project_id)
pair. -/
def projectCountFor (extId projId : String) (db : List ProjectRow) : Nat :=
  (db.filter (fun r => r.clickup_task_id = extId ∧ r.project_id = projId)).length

/-- A concrete remote task used to evaluate the pipeline. -/
def demoTask : ClickUpTask :=
  { id := "t1"
    name := "Demo task"
    description := some "a demo"
    status := "open"
    priority := 3
    assignees := []
    tags := []
    due_date := none }

/-- A concrete staged row for the natural key (t1, p1) already promoted. -/
def promotedRow : StagingRow :=
  { id := "row-1"
    clickup_task_id := "t1"
    project_id := "p1"
    title := "Demo task"
    description := "a demo"
    status := "open"
    priority := 3
    assignees := []
    tags := []
    due_date := none
    created_at := 0
    updated_at := 0
    sync_status := SyncStatus.promoted }

/-- A concrete staged row for the natural key (t1, p1) awaiting review. -/
def stagedDemoRow : StagingRow :=
  { promotedRow with id := "row-2", sync_status := SyncStatus.pending }

/-- Claim C1, evaluated at the failing input: pulling the same unchanged
remote task twice (SyncAgent.stageTask is called with a fresh random UUID
on each pull, and staging_tasks has no uniqueness constraint on
(clickup_task_id, project_id)) leaves two staging_tasks rows for the
single natural key (t1, p1), not at most one as the claim requires. -/
theorem stageTask_second_pull_duplicates_row :
    stagingCountFor "t1" "p1"
      (stageTasks [(demoTask, "uuid-2")] "p1" 2
        (stageTasks [(demoTask, "uuid-1")] "p1" 1 [])) = 2 := by
  decide

/-- Claim C2, evaluated at the failing input: calling
ReviewAgent.promoteTask twice for the same staged task inserts two
project_tasks rows sharing the natural key (t1, p1) — project_tasks has no
uniqueness constraint on (clickup_task_id, project_id) and the insert is a
plain INSERT keyed on a fresh UUID, so the second call is neither a
DuplicatePromotionError nor a no-op. -/
theorem promoteTask_twice_inserts_two_rows :
    projectCountFor "t1" "p1"
      (promoteTask stagedDemoRow "pt-2" 2
        (promoteTask stagedDemoRow "pt-1" 1 [])) = 2 := by
  decide

/-- Claim C3, evaluated at the failing input: with a staging_tasks row for
(t1, p1) already marked promoted, a routine pull of the same remote task
unconditionally inserts a fresh row with sync_status pending for that same
natural key — there is no check of the existing record's status — so the
staged task identified by (t1, p1) re-enters the pending queue. -/
theorem stageTask_reinserts_pending_beside_promoted :
    ((stageTask demoTask "p1" "uuid-9" 5 [promotedRow]).filter
        (fun r => r.clickup_task_id = "t1" ∧ r.project_id = "p1" ∧
          r.sync_status = SyncStatus.pending)).length = 1 ∧
      promotedRow ∈ stageTask demoTask "p1" "uuid-9" 5 [promotedRow] := by
  constructor
  · decide
  · decide

/-- The EnrichmentData record produced by ReviewAgent.enrichTask (either
the orchestrator's AI enrichment or the local fallback); every field is
optional on the TypeScript interface. -/
structure EnrichmentData where
  description : Option String := none
  unit_tests : Option (List String) := none
  tags : Option (List String) := none
  priority : Option Nat := none
  effort_estimate : Option Nat := none
  dependencies : Option (List String) := none
  assignees : Option (List String) := none
  success_criteria : Option (List String) := none
deriving DecidableEq, Repr

/-- JavaScript n-or-default on an optional number: undefined and 0 are
falsy, so both fall back to the default. -/
def jsOrNat (v : Option Nat) (dflt : Nat) : Nat :=
  match v with
  | none => dflt
  | some 0 => dflt
  | some (n + 1) => n + 1

/-- ReviewAgent.validateTask: non-empty title, project_id,
clickup_task_id and status. -/
def validateTask (t : StagingRow) : Bool :=
  (t.title ≠ "" && t.project_id ≠ "" && t.clickup_task_id ≠ "" && t.status ≠ "")

/-- ReviewAgent.needsEnrichment: missing description, unit tests, tags,
effort estimate or success criteria. -/
def needsEnrichment (t : StagingRow) : Bool :=
  (t.description = "" || t.unit_tests.isEmpty || t.tags.isEmpty ||
    t.effort_estimate = 0 || t.success_criteria.isEmpty)

/-- ReviewAgent.updateStagedTask: an UPDATE of the staging_tasks row with
the given primary key, merging the enrichment payload and setting
sync_status to enriched. -/
def updateStagedTask (taskId : String) (d : EnrichmentData) (now : Nat)
    (db : List StagingRow) : List StagingRow :=
  db.map (fun r =>
    if r.id = taskId then
      { r with
          description := d.description.getD ""
          tags := d.tags.getD []
          priority := jsOrNat d.priority 3
          effort_estimate := jsOrNat d.effort_estimate 1
          dependencies := d.dependencies.getD []
          assignees := d.assignees.getD []
          success_criteria := d.success_criteria.getD []
          unit_tests := d.unit_tests.getD []
          sync_status := SyncStatus.enriched
          updated_at := now }
    else r)

/-- ReviewAgent.markStagedTaskInactive: an UPDATE setting sync_status to
promoted on the staging_tasks row with the given primary key. -/
def markStagedTaskInactive (taskId : String) (now : Nat)
    (db : List StagingRow) : List StagingRow :=
  db.map (fun r =>
    if r.id = taskId then
      { r with sync_status := SyncStatus.promoted, updated_at := now }
    else r)

/-- The mutable stores touched by a review pass, together with the warning
log written on validation failure. -/
structure ReviewDb where
  staging : List StagingRow
  project_tasks : List ProjectRow
  log : List String
deriving DecidableEq, Repr

/-- Outcome flags returned by ReviewAgent.reviewSingleTask. -/
structure ReviewOutcome where
  enriched : Bool
  promoted : Bool
deriving DecidableEq, Repr

/-- The enrichment stage of ReviewAgent.reviewSingleTask: when the task
needs enrichment and the enrichment call returned data (rather than null
on failure), merge it into the staged row; otherwise the store is left
untouched. -/
def enrichStage (task : StagingRow) (enrichResult : Option EnrichmentData)
    (now : Nat) (db : ReviewDb) : ReviewDb × Bool :=
  if needsEnrichment task then
    match enrichResult with
    | some d => ({ db with staging := updateStagedTask task.id d now db.staging }, true)
    | none => (db, false)
  else (db, false)

/-- ReviewAgent.reviewSingleTask: optionally enrich, then validate the
in-memory task; on success promote it into project_tasks (fresh UUID) and
mark the staged row promoted, on validation failure log a warning and
leave the stores as the enrichment stage left them. -/
def reviewSingleTask (task : StagingRow) (enrichResult : Option EnrichmentData)
    (freshId : String) (now : Nat) (db : ReviewDb) : ReviewDb × ReviewOutcome :=
  let step1 := enrichStage task enrichResult now db
  let db1 := step1.1
  if validateTask task then
    ({ staging := markStagedTaskInactive task.id now db1.staging
       project_tasks := promoteTask task freshId now db1.project_tasks
       log := db1.log },
     { enriched := step1.2, promoted := true })
  else
    ({ db1 with log := db1.log ++ ["validation failed: " ++ task.id] },
     { enriched := step1.2, promoted := false })

/-- Counters accumulated by ReviewAgent.reviewStagedTasks. -/
structure ReviewResult where
  tasksReviewed : Nat
  tasksEnriched : Nat
  tasksPromoted : Nat
  errors : List String
deriving DecidableEq, Repr

/-- One iteration of the batch loop of ReviewAgent.reviewStagedTasks:
review the task against the current stores and advance the counters. -/
def reviewStep (enrichFor : StagingRow → Option EnrichmentData)
    (idFor : StagingRow → String) (now : Nat)
    (acc : ReviewDb × ReviewResult) (task : StagingRow) : ReviewDb × ReviewResult :=
  let step := reviewSingleTask task (enrichFor task) (idFor task) now acc.1
  (step.1,
   { tasksReviewed := acc.2.tasksReviewed + 1
     tasksEnriched := acc.2.tasksEnriched + (if step.2.enriched then 1 else 0)
     tasksPromoted := acc.2.tasksPromoted + (if step.2.promoted then 1 else 0)
     errors := acc.2.errors })

/-- The batch loop of ReviewAgent.reviewStagedTasks: each staged task is
reviewed in turn; a failed review never aborts the batch (the loop body is
wrapped in its own try/catch and reviewSingleTask itself catches its
errors), and the counters advance for every task. -/
def reviewBatch (enrichFor : StagingRow → Option EnrichmentData)
    (idFor : StagingRow → String) (now : Nat) (tasks : List StagingRow)
    (db : ReviewDb) : ReviewDb × ReviewResult :=
  tasks.foldl (reviewStep enrichFor idFor now)
    (db, { tasksReviewed := 0, tasksEnriched := 0, tasksPromoted := 0, errors := [] })

/-- ReviewAgent.getStagedTasks: SELECT from staging_tasks WHERE
sync_status is pending, ORDER BY created_at ascending. -/
def getStagedTasks (db : List StagingRow) : List StagingRow :=
  List.insertionSort (fun a b => a.created_at ≤ b.created_at)
    (db.filter (fun r => r.sync_status = SyncStatus.pending))

instance : IsTotal StagingRow (fun a b => a.created_at ≤ b.created_at) :=
  ⟨fun a b => Nat.le_total a.created_at b.created_at⟩

instance : IsTrans StagingRow (fun a b => a.created_at ≤ b.created_at) :=
  ⟨fun _ _ _ h1 h2 => Nat.le_trans h1 h2⟩

/-- A concrete staged row for (t1, p1) already enriched. -/
def enrichedRow : StagingRow :=
  { promotedRow with id := "row-3", sync_status := SyncStatus.enriched }

/-- Claim C8, counterexample: a staging store holding a single task with
sync_status enriched yields an empty review batch — getStagedTasks selects
only sync_status pending, so enriched tasks are not part of the batch as
the claim requires. -/
theorem getStagedTasks_misses_enriched :
    getStagedTasks [enrichedRow] = [] ∧
      enrichedRow.sync_status = SyncStatus.enriched := by
  constructor
  · decide
  · decide

lemma enrichStage_project_tasks (t : StagingRow) (er : Option EnrichmentData)
    (now : Nat) (db : ReviewDb) :
    (enrichStage t er now db).1.project_tasks = db.project_tasks := by
  cases h : needsEnrichment t <;> cases er <;> simp [enrichStage, h]

lemma enrichStage_log (t : StagingRow) (er : Option EnrichmentData)
    (now : Nat) (db : ReviewDb) :
    (enrichStage t er now db).1.log = db.log := by
  cases h : needsEnrichment t <;> cases er <;> simp [enrichStage, h]

lemma enrichStage_skip (t : StagingRow) (er : Option EnrichmentData)
    (now : Nat) (db : ReviewDb) (h : needsEnrichment t = false) :
    (enrichStage t er now db).1 = db := by
  cases er <;> simp [enrichStage, h]

lemma foldl_reviewStep_reviewed (enrichFor : StagingRow → Option EnrichmentData)
    (idFor : StagingRow → String) (now : Nat) :
    ∀ (tasks : List StagingRow) (init : ReviewDb × ReviewResult),
      (tasks.foldl (reviewStep enrichFor idFor now) init).2.tasksReviewed =
        init.2.tasksReviewed + tasks.length := by
  intro tasks
  induction tasks with
  | nil => intro init; simp
  | cons t ts ih =>
      intro init
      rw [List.foldl_cons, ih]
      simp [reviewStep]
      omega

/-- Claim C6: ReviewAgent.validateTask is true exactly when title,
project_id, clickup_task_id and status are all non-empty; a task failing
validation is not promoted (project_tasks is untouched), its staged row
keeps the sync_status the enrichment stage left it with (exactly its prior
value when no enrichment ran), the failure is appended to the log, and the
batch loop still processes every task of the batch. -/
theorem validation_gate_batch_tolerance :
    (∀ t : StagingRow, validateTask t = true ↔
        (t.title ≠ "" ∧ t.project_id ≠ "" ∧ t.clickup_task_id ≠ "" ∧ t.status ≠ "")) ∧
    (∀ (t : StagingRow) (er : Option EnrichmentData) (fid : String) (now : Nat)
        (db : ReviewDb), validateTask t = false →
        (reviewSingleTask t er fid now db).2.promoted = false ∧
        (reviewSingleTask t er fid now db).1.project_tasks = db.project_tasks ∧
        (reviewSingleTask t er fid now db).1.staging = (enrichStage t er now db).1.staging ∧
        (reviewSingleTask t er fid now db).1.log =
          db.log ++ ["validation failed: " ++ t.id] ∧
        (needsEnrichment t = false →
          (reviewSingleTask t er fid now db).1.staging = db.staging)) ∧
    (∀ (enrichFor : StagingRow → Option EnrichmentData) (idFor : StagingRow → String)
        (now : Nat) (tasks : List StagingRow) (db : ReviewDb),
        (reviewBatch enrichFor idFor now tasks db).2.tasksReviewed = tasks.length) := by
  refine ⟨?_, ?_, ?_⟩
  · intro t
    simp [validateTask]
    tauto
  · intro t er fid now db h
    refine ⟨?_, ?_, ?_, ?_, ?_⟩
    · simp [reviewSingleTask, h]
    · simp [reviewSingleTask, h, enrichStage_project_tasks]
    · simp [reviewSingleTask, h]
    · simp [reviewSingleTask, h, enrichStage_log]
    · intro hn
      simp [reviewSingleTask, h, enrichStage_skip t er now db hn]
  · intro enrichFor idFor now tasks db
    rw [reviewBatch, foldl_reviewStep_reviewed]
    simp

/-- A staged row with an empty title, failing validation. -/
def badTitleRow : StagingRow :=
  { stagedDemoRow with id := "row-4", title := "" }

/-- A concrete review store holding the invalid row. -/
def demoReviewDb : ReviewDb :=
  { staging := [badTitleRow], project_tasks := [], log := [] }

/-- Witness for claim C6 at a concrete input: the row with an empty title
fails validation, and reviewing it promotes nothing, leaves project_tasks
empty, and logs the failure. -/
theorem validation_gate_batch_tolerance_witness :
    validateTask badTitleRow = false ∧
      (reviewSingleTask badTitleRow none "pt-9" 7 demoReviewDb).2.promoted = false ∧
      (reviewSingleTask badTitleRow none "pt-9" 7 demoReviewDb).1.project_tasks = [] := by
  refine ⟨by decide, ?_, ?_⟩
  · exact (validation_gate_batch_tolerance.2.1 badTitleRow none "pt-9" 7 demoReviewDb
      (by decide)).1
  · exact (validation_gate_batch_tolerance.2.1 badTitleRow none "pt-9" 7 demoReviewDb
      (by decide)).2.1

/-- Claim C8 as amended: the review batch selection returns exactly the
staged tasks whose sync_status is pending (tasks already enriched are not
reselected), ordered by ascending created_at. -/
theorem getStagedTasks_pending_sorted (db : List StagingRow) :
    (getStagedTasks db).Perm
        (db.filter (fun r => r.sync_status = SyncStatus.pending)) ∧
      (getStagedTasks db).Sorted (fun a b => a.created_at ≤ b.created_at) := by
  constructor
  · exact List.perm_insertionSort _ _
  · exact List.sorted_insertionSort _ _

/-- Prefix match on character lists, the kernel of the JavaScript
String.prototype.includes used throughout EnrichmentAgent. -/
def charsPrefixMatch : List Char → List Char → Bool
  | [], _ => true
  | _ :: _, [] => false
  | a :: as, b :: bs => a = b && charsPrefixMatch as bs

/-- Substring occurrence on character lists. -/
def charsHaveSub (sub : List Char) : List Char → Bool
  | [] => charsPrefixMatch sub []
  | c :: rest => charsPrefixMatch sub (c :: rest) || charsHaveSub sub rest

/-- JavaScript s.includes(pat). -/
def strIncludes (s pat : String) : Bool :=
  charsHaveSub pat.toList s.toList

/-- JavaScript s.toLowerCase() (over the characters of the string). -/
def lowerStr (s : String) : String :=
  String.mk (s.toList.map Char.toLower)

/-- JavaScript s.trim() === two single quotes: every character of the
string is whitespace. -/
def isBlankStr (s : String) : Bool :=
  s.toList.all Char.isWhitespace

/-- First-occurrence replacement on character lists, the semantics of
JavaScript String.prototype.replace with a string pattern. -/
def replaceFirstChars (pat rep : List Char) : List Char → List Char
  | [] => if pat.isEmpty then rep else []
  | c :: rest =>
      if charsPrefixMatch pat (c :: rest) then rep ++ (c :: rest).drop pat.length
      else c :: replaceFirstChars pat rep rest

/-- JavaScript s.replace(pat, rep) for string patterns (first occurrence
only). -/
def strReplaceFirst (s pat rep : String) : String :=
  String.mk (replaceFirstChars pat.toList rep.toList s.toList)

/-- JavaScript spread of a Set built from a list: deduplication keeping
the first occurrence of each element. -/
def dedupKeepFirst (seen : List String) : List String → List String
  | [] => []
  | s :: rest =>
      if seen.contains s then dedupKeepFirst seen rest
      else s :: dedupKeepFirst (s :: seen) rest

/-- The task fields EnrichmentAgent.performEnrichment reads from its
input (the TaskStaging shape): title, optional description and tags;
missing strings and arrays are modelled as empty. -/
structure EnrichInput where
  title : String
  description : String := ""
  tags : List String := []
  unit_tests : List String := []
deriving DecidableEq, Repr

/-- The record built by EnrichmentAgent.performEnrichment. -/
structure EnrichedTask where
  title : String
  description : String
  priority : Nat
  estimated_hours : Nat
  dependencies : List String
  assignee_suggestions : List String
  tags : List String
  unit_tests : List String
deriving DecidableEq, Repr

/-- EnrichmentAgent.generateDefaultDescription: keyword-bucketed default
description derived from the title. -/
def generateDefaultDescription (title : String) : String :=
  let titleLower := lowerStr title
  if strIncludes titleLower "implement" || strIncludes titleLower "create" then
    "Implement the " ++
      strReplaceFirst (strReplaceFirst (lowerStr title) "implement " "") "create " "" ++
      " functionality according to project requirements."
  else if strIncludes titleLower "test" || strIncludes titleLower "testing" then
    "Create comprehensive tests for " ++
      strReplaceFirst (strReplaceFirst (lowerStr title) "test " "") "testing " "" ++
      " to ensure quality and reliability."
  else if strIncludes titleLower "fix" || strIncludes titleLower "bug" then
    "Investigate and resolve the issue described in the task title. " ++
      "Ensure the fix is properly tested and documented."
  else if strIncludes titleLower "design" || strIncludes titleLower "ui" then
    "Design and create the user interface components for " ++
      strReplaceFirst (strReplaceFirst (lowerStr title) "design " "") "ui " "" ++ "."
  else if strIncludes titleLower "deploy" || strIncludes titleLower "release" then
    "Prepare and execute the deployment process for " ++
      strReplaceFirst (strReplaceFirst (lowerStr title) "deploy " "") "release " "" ++ "."
  else
    "Complete the task: " ++ title ++
      ". Ensure all requirements are met and the implementation follows project standards."

/-- EnrichmentAgent.generateUnitTests: two baseline tests plus
keyword-conditional additions. -/
def generateUnitTests (title description : String) : List String :=
  let titleLower := lowerStr title
  let descLower := lowerStr description
  ["should pass basic validation", "should link to valid project"] ++
    (if strIncludes titleLower "api" || strIncludes descLower "api" then
      ["should return correct HTTP status codes", "should handle error cases gracefully"]
    else []) ++
    (if strIncludes titleLower "auth" || strIncludes descLower "authentication" then
      ["should validate user credentials", "should handle unauthorized access"]
    else []) ++
    (if strIncludes titleLower "database" || strIncludes descLower "database" then
      ["should maintain data integrity", "should handle database connection errors"]
    else []) ++
    (if strIncludes titleLower "ui" || strIncludes titleLower "frontend" then
      ["should render correctly on different screen sizes",
       "should handle user interactions properly"]
    else []) ++
    (if strIncludes titleLower "test" || strIncludes titleLower "testing" then
      ["should have adequate test coverage", "should run within acceptable time limits"]
    else [])

/-- EnrichmentAgent.estimatePriority: keyword buckets over the combined
lowercased title and description, 1 highest to 5 lowest, default 3. -/
def estimatePriority (title description : String) : Nat :=
  let text := lowerStr (title ++ " " ++ description)
  if strIncludes text "urgent" || strIncludes text "critical" || strIncludes text "blocker" then 1
  else if strIncludes text "bug" || strIncludes text "fix" || strIncludes text "error" then 2
  else if strIncludes text "security" || strIncludes text "auth" then 2
  else if strIncludes text "feature" || strIncludes text "implement" then 3
  else if strIncludes text "test" || strIncludes text "documentation" then 4
  else if strIncludes text "nice to have" || strIncludes text "optional" then 5
  else 3

/-- EnrichmentAgent.estimateEffort: keyword buckets for effort hours,
default 2. -/
def estimateEffort (title description : String) : Nat :=
  let text := lowerStr (title ++ " " ++ description)
  if strIncludes text "simple" || strIncludes text "quick" || strIncludes text "minor" then 1
  else if strIncludes text "complex" || strIncludes text "major" || strIncludes text "refactor" then 8
  else if strIncludes text "api" || strIncludes text "integration" then 4
  else if strIncludes text "ui" || strIncludes text "design" then 3
  else if strIncludes text "test" || strIncludes text "documentation" then 2
  else 2

/-- EnrichmentAgent.suggestTags: keyword dictionary over the combined
lowercased title and description. -/
def suggestTags (title description : String) : List String :=
  let text := lowerStr (title ++ " " ++ description)
  (if strIncludes text "api" || strIncludes text "rest" then ["api"] else []) ++
    (if strIncludes text "frontend" || strIncludes text "ui" || strIncludes text "react" then
      ["frontend"] else []) ++
    (if strIncludes text "backend" || strIncludes text "server" then ["backend"] else []) ++
    (if strIncludes text "database" || strIncludes text "sql" then ["database"] else []) ++
    (if strIncludes text "auth" || strIncludes text "security" then ["security"] else []) ++
    (if strIncludes text "test" || strIncludes text "testing" then ["testing"] else []) ++
    (if strIncludes text "deploy" || strIncludes text "ci/cd" then ["devops"] else []) ++
    (if strIncludes text "bug" || strIncludes text "fix" then ["bugfix"] else []) ++
    (if strIncludes text "urgent" || strIncludes text "critical" then ["high-priority"] else []) ++
    (if strIncludes text "nice to have" then ["low-priority"] else []) ++
    (if strIncludes text "feature" then ["feature"] else []) ++
    (if strIncludes text "documentation" then ["documentation"] else []) ++
    (if strIncludes text "refactor" then ["refactor"] else [])

/-- EnrichmentAgent.detectDependencies: naive dependency-phrase
detection. -/
def detectDependencies (title description : String) : List String :=
  let text := lowerStr (title ++ " " ++ description)
  (if strIncludes text "depends on" || strIncludes text "requires" then
    ["dependency-1"] else []) ++
    (if strIncludes text "after" || strIncludes text "following" then
      ["prerequisite-task"] else [])

/-- EnrichmentAgent.suggestAssignees: role suggestions from keywords and
tags, with a generic full-stack fallback. -/
def suggestAssignees (title description : String) (tags : List String) : List String :=
  let text := lowerStr (title ++ " " ++ description)
  let suggestions :=
    (if strIncludes text "frontend" || strIncludes text "ui" || tags.contains "frontend" then
      ["frontend-developer"] else []) ++
      (if strIncludes text "backend" || strIncludes text "api" || tags.contains "backend" then
        ["backend-developer"] else []) ++
      (if strIncludes text "database" || strIncludes text "sql" || tags.contains "database" then
        ["database-admin"] else []) ++
      (if strIncludes text "security" || strIncludes text "auth" || tags.contains "security" then
        ["security-engineer"] else []) ++
      (if strIncludes text "test" || strIncludes text "testing" || tags.contains "testing" then
        ["qa-engineer"] else []) ++
      (if strIncludes text "deploy" || strIncludes text "devops" || tags.contains "devops" then
        ["devops-engineer"] else [])
  if suggestions.isEmpty then ["full-stack-developer"] else suggestions

/-- EnrichmentAgent.performEnrichment with its default configuration
(every feature flag enabled): default description, generated unit tests,
estimated priority and effort, merged deduplicated tags, detected
dependencies and suggested assignees. -/
def performEnrichment (task : EnrichInput) : EnrichedTask :=
  let desc0 := if task.description = "" then "No description provided" else task.description
  let description :=
    if isBlankStr desc0 then generateDefaultDescription task.title else desc0
  let tags := dedupKeepFirst [] (task.tags ++ suggestTags task.title description)
  { title := task.title
    description := description
    priority := estimatePriority task.title description
    estimated_hours := estimateEffort task.title description
    dependencies := detectDependencies task.title description
    assignee_suggestions := suggestAssignees task.title description tags
    tags := tags
    unit_tests := generateUnitTests task.title description }

/-- EnrichmentAgent.calculateConfidenceScore: a base of 0.5 plus bonuses
of 0.2 for a description over 50 characters, 0.1 for at least two unit
tests, 0.1 for at least one tag, 0.1 for a positive effort estimate,
capped at 1.0. -/
def calculateConfidenceScore (e : EnrichedTask) : ℚ :=
  min (1 / 2 + (if 50 < e.description.length then (2 : ℚ) / 10 else 0) +
      (if 2 ≤ e.unit_tests.length then (1 : ℚ) / 10 else 0) +
      (if 0 < e.tags.length then (1 : ℚ) / 10 else 0) +
      (if 0 < e.estimated_hours then (1 : ℚ) / 10 else 0))
    1

/-- EnrichmentAgent.enrichTask composes performEnrichment with the
confidence heuristic. -/
def enrichConfidence (task : EnrichInput) : ℚ :=
  calculateConfidenceScore (performEnrichment task)

lemma calculateConfidenceScore_bounds (e : EnrichedTask) :
    1 / 2 ≤ calculateConfidenceScore e ∧ calculateConfidenceScore e ≤ 1 := by
  unfold calculateConfidenceScore
  constructor
  · refine le_min ?_ (by norm_num)
    split_ifs <;> norm_num
  · exact min_le_right _ _

lemma two_le_generateUnitTests_length (title description : String) :
    2 ≤ (generateUnitTests title description).length := by
  unfold generateUnitTests
  simp only [List.length_append, List.length_cons, List.length_nil]
  omega

/-- A task with a plain title and empty description, tags and unit
tests. -/
def helloTask : EnrichInput := { title := "hello" }

/-- Claim C7, counterexample: for the task titled hello with empty
description, tags and unit tests, performEnrichment returns an empty tag
list — neither the title nor the substituted default description matches
any entry of the tag dictionary — so enrichment does not always return at
least one tag. -/
theorem performEnrichment_hello_no_tags :
    (performEnrichment helloTask).tags = [] ∧ helloTask.description = "" ∧
      helloTask.tags = [] ∧ helloTask.unit_tests = [] := by
  refine ⟨?_, rfl, rfl, rfl⟩
  decide

/-- Claim C7 as amended: for every task whose description, tags and unit
tests are empty, enrichment returns the non-empty default description, at
least 2 unit test names, and a confidence score in the interval from 0
to 1; a non-empty tag list is not guaranteed (the tag dictionary may
match nothing, as the counterexample shows). -/
theorem enrichment_completeness_amended (t : EnrichInput)
    (hd : t.description = "") (ht : t.tags = []) (hu : t.unit_tests = []) :
    (performEnrichment t).description = "No description provided" ∧
      2 ≤ (performEnrichment t).unit_tests.length ∧
      0 ≤ enrichConfidence t ∧ enrichConfidence t ≤ 1 := by
  have hblank : isBlankStr "No description provided" = false := by decide
  have hdesc : (performEnrichment t).description = "No description provided" := by
    simp [performEnrichment, hd, hblank]
  refine ⟨hdesc, ?_, ?_, ?_⟩
  · simp only [performEnrichment]
    exact two_le_generateUnitTests_length _ _
  · exact le_trans (by norm_num) (calculateConfidenceScore_bounds (performEnrichment t)).1
  · exact (calculateConfidenceScore_bounds (performEnrichment t)).2

/-- Witness for the amended claim C7 at the concrete hello task. -/
theorem enrichment_completeness_amended_witness :
    (performEnrichment helloTask).description = "No description provided" ∧
      2 ≤ (performEnrichment helloTask).unit_tests.length ∧
      0 ≤ enrichConfidence helloTask ∧ enrichConfidence helloTask ≤ 1 :=
  enrichment_completeness_amended helloTask rfl rfl rfl

/-- Claim C10: the enrichment confidence score computed by
calculateConfidenceScore always lies in the closed interval from 0.5 to
1.0 — a base of 0.5, only non-negative bonuses, capped at 1.0. -/
theorem calculateConfidenceScore_mem_half_one (e : EnrichedTask) :
    1 / 2 ≤ calculateConfidenceScore e ∧ calculateConfidenceScore e ≤ 1 :=
  calculateConfidenceScore_bounds e

/-- One step of a flow: the FlowStep shape of orchestrate/types.ts
(id, name, agent, optional retries and timeout) merged with the method
name used by AgentManager's FlowConfig steps. -/
structure StepDef where
  id : String := ""
  name : String := ""
  agent : String
  step : String := ""
  retries : Option Nat := none
  timeout : Option Nat := none
deriving DecidableEq, Repr

/-- Step 1 of the newProject flow of AgentManager.initializeFlows. -/
def tplStep : StepDef := { agent := "template", step := "createProjectTemplate" }

/-- Step 2 of the newProject flow of AgentManager.initializeFlows. -/
def projStep : StepDef := { agent := "project", step := "generateProjectStructure" }

/-- Step 3 of the newProject flow of AgentManager.initializeFlows. -/
def validateStep : StepDef := { agent := "review", step := "validateProject" }

/-- The flow table built by AgentManager.initializeFlows. -/
def builtinFlows : List (String × List StepDef) :=
  [("sync", [{ agent := "sync", step := "syncAllProjects" }]),
   ("reviewStagedTasks", [{ agent := "review", step := "reviewStagedTasks" }]),
   ("enrichTask", [{ agent := "enrichment", step := "enrichTask" }]),
   ("newProject", [tplStep, projStep, validateStep])]

/-- The agent names registered by AgentManager.initializeAgents. -/
def builtinAgents : List String := ["enrichment", "review", "project", "template"]

/-- Map lookup on the flow table. -/
def lookupFlow (flows : List (String × List StepDef)) (flowName : String) :
    Option (List StepDef) :=
  (flows.find? (fun p => p.1 = flowName)).map (fun p => p.2)

/-- The shape of the OrchestrationResult returned by
AgentManager.executeFlow. -/
structure OrchResult (α : Type) where
  success : Bool
  flowId : String
  results : List α
  error : Option String
deriving DecidableEq, Repr

/-- The step loop of AgentManager.executeFlow.  Each step resolves its
agent and is invoked exactly once — the code contains no retry, backoff or
timeout handling — and the invocation is recorded in the attempts trace by
step index.  An invocation error or a missing agent aborts the loop with
the results gathered so far preserved. -/
def execSteps {α : Type} (agents : List String) (invoke : Nat → StepDef → Except String α) :
    List StepDef → Nat → List α → List Nat → List α × List Nat × Option String
  | [], _, results, attempts => (results, attempts, none)
  | s :: rest, i, results, attempts =>
      if agents.contains s.agent then
        match invoke i s with
        | Except.ok r => execSteps agents invoke rest (i + 1) (results ++ [r]) (attempts ++ [i])
        | Except.error e => (results, attempts ++ [i], some e)
      else
        (results, attempts,
         some ("Agent " ++ s.agent ++ " not found for step " ++ toString (i + 1)))

/-- AgentManager.executeFlow: resolve the flow (an unknown flow name
throws, escaping to the caller), then run the steps in order inside the
try block; step-level failures are caught and returned as an unsuccessful
OrchestrationResult with the partial results.  The attempts trace is
returned alongside for the analysis. -/
def executeFlow {α : Type} (flows : List (String × List StepDef)) (agents : List String)
    (invoke : Nat → StepDef → Except String α) (flowId flowName : String) :
    Except String (OrchResult α × List Nat) :=
  match lookupFlow flows flowName with
  | none => Except.error ("Flow " ++ flowName ++ " not found")
  | some steps =>
      match execSteps agents invoke steps 0 [] [] with
      | (results, attempts, none) =>
          Except.ok ({ success := true, flowId := flowId, results := results, error := none },
            attempts)
      | (results, attempts, some e) =>
          Except.ok ({ success := false, flowId := flowId, results := results, error := some e },
            attempts)

/-- The ai_analysis step of the syncFlow definition shipped with the
repository, which configures retries 2 and a 45 second timeout. -/
def aiAnalysisStep : StepDef :=
  { id := "ai_analysis", name := "Analyze Sync Requirements", agent := "ai",
    retries := some 2, timeout := some 45000 }

/-- Claim C4, counterexample: executing a flow whose single step carries a
retry budget of 2 against an invocation that fails on every attempt makes
exactly one attempt (the attempts trace is the single index 0), not the 3
attempts the claim requires — AgentManager.executeFlow never reads the
retries or timeout configuration. -/
theorem executeFlow_attempts_once_despite_retries :
    executeFlow [("sync", [aiAnalysisStep])] ["ai"]
        (fun _ _ => (Except.error "remote call failed" : Except String Nat))
        "flow-1" "sync" =
      Except.ok ({ success := false, flowId := "flow-1", results := [],
                   error := some "remote call failed" }, [0]) := rfl

lemma execSteps_attempts {α : Type} (agents : List String)
    (invoke : Nat → StepDef → Except String α) :
    ∀ (steps : List StepDef) (i : Nat) (results : List α) (attempts : List Nat),
      ∃ k ≤ steps.length,
        (execSteps agents invoke steps i results attempts).2.1 =
          attempts ++ List.range' i k := by
  intro steps
  induction steps with
  | nil =>
      intro i results attempts
      exact ⟨0, Nat.zero_le _, by simp [execSteps]⟩
  | cons s rest ih =>
      intro i results attempts
      by_cases hs : agents.contains s.agent
      · cases hv : invoke i s with
        | ok r =>
            obtain ⟨k, hk, heq⟩ := ih (i + 1) (results ++ [r]) (attempts ++ [i])
            refine ⟨k + 1, by simpa using Nat.succ_le_succ hk, ?_⟩
            rw [execSteps, if_pos hs, hv, heq, List.range'_succ]
            simp
        | error e =>
            refine ⟨1, by simp, ?_⟩
            rw [execSteps, if_pos hs, hv]
            simp [List.range'_succ]
      · refine ⟨0, Nat.zero_le _, ?_⟩
        rw [execSteps, if_neg hs]
        simp

/-- Claim C4 as amended: for every flow of the table, executeFlow attempts
each executed step exactly once, in order — the attempts trace is the list
of the first k step indices for some k bounded by the number of steps —
regardless of any configured retry budget or timeout; in particular a step
configured with retries 2 that always fails is attempted exactly once
before the flow fails. -/
theorem executeFlow_one_attempt_per_step {α : Type}
    (flows : List (String × List StepDef)) (agents : List String)
    (invoke : Nat → StepDef → Except String α) (flowId flowName : String)
    (steps : List StepDef) (h : lookupFlow flows flowName = some steps) :
    ∃ k, k ≤ steps.length ∧ ∃ res,
      executeFlow flows agents invoke flowId flowName = Except.ok (res, List.range' 0 k) := by
  obtain ⟨k, hk, heq⟩ := execSteps_attempts agents invoke steps 0 [] []
  refine ⟨k, hk, ?_⟩
  unfold executeFlow
  rw [h]
  dsimp only
  rcases hcase : execSteps agents invoke steps 0 [] [] with ⟨results, attempts, err⟩
  rw [hcase] at heq
  dsimp only at heq
  rw [List.nil_append] at heq
  cases err with
  | none =>
      dsimp only
      exact ⟨_, by rw [heq]⟩
  | some e =>
      dsimp only
      exact ⟨_, by rw [heq]⟩

/-- Witness for the amended claim C4 at the concrete newProject flow with
an invocation that always succeeds. -/
theorem executeFlow_one_attempt_per_step_witness :
    ∃ k, k ≤ ([tplStep, projStep, validateStep] : List StepDef).length ∧ ∃ res,
      executeFlow builtinFlows builtinAgents
          (fun _ _ => (Except.ok 0 : Except String Nat)) "flow-2" "newProject" =
        Except.ok (res, List.range' 0 k) :=
  executeFlow_one_attempt_per_step builtinFlows builtinAgents
    (fun _ _ => (Except.ok 0 : Except String Nat)) "flow-2" "newProject"
    [tplStep, projStep, validateStep] rfl

/-- One row of the agent_status table (migration 002), the persisted
flow-status record. -/
structure AgentStatusRow where
  flow_id : String
  step_name : String
  state : String
  updated_at : Nat
deriving DecidableEq, Repr

/-- The ledger tables the Orchestrator writes: agent_status (INSERT OR
REPLACE keyed by flow_id) and sync_log entries as timestamp paired with
the success flag. -/
structure LedgerDb where
  agent_status : List AgentStatusRow
  sync_log : List (Nat × Bool)
deriving DecidableEq, Repr

/-- Orchestrator.logOperation: INSERT OR REPLACE into agent_status, keyed
by the primary key flow_id.  Its own failures are swallowed, so the write
is modelled as total. -/
def logOperation (flowId action state : String) (now : Nat)
    (db : List AgentStatusRow) : List AgentStatusRow :=
  db.filter (fun r => r.flow_id ≠ flowId) ++
    [{ flow_id := flowId, step_name := action, state := state, updated_at := now }]

/-- The request body parsed by Orchestrator.handleRequest: flowName falls
back through action to the string unknown, and webhook routing reads an
event name from the metadata. -/
structure OrchRequest where
  flowName : String := "unknown"
  event : Option String := none
deriving DecidableEq, Repr

/-- The OrchestrationResponse envelope built by
Orchestrator.createSuccessResponse and createErrorResponse: success flag,
flow id, result or error, processing time, timestamp, HTTP status. -/
structure OrchResponse (α : Type) where
  success : Bool
  flowId : String
  result : Option (OrchResult α)
  error : Option String
  processingTime : Nat
  timestamp : Nat
  statusCode : Nat
deriving DecidableEq, Repr

/-- Orchestrator.createSuccessResponse. -/
def createSuccessResponse {α : Type} (res : OrchResult α) (flowId : String)
    (now : Nat) : OrchResponse α :=
  { success := true, flowId := flowId, result := some res, error := none,
    processingTime := 0, timestamp := now, statusCode := 200 }

/-- Orchestrator.createErrorResponse. -/
def createErrorResponse (α : Type) (msg : String) (statusCode : Nat)
    (flowId : String) (now : Nat) : OrchResponse α :=
  { success := false, flowId := flowId, result := none, error := some msg,
    processingTime := 0, timestamp := now, statusCode := statusCode }

/-- The routing switch of Orchestrator.handleRequest: the orchestration
path determines the flow executed by the AgentManager; the webhook path
additionally dispatches on the metadata event name. -/
def routeFlowName (path : String) (req : OrchRequest) : Option String :=
  if path = "/orchestrate/sync" then some "sync"
  else if path = "/orchestrate/new-project" then some "newProject"
  else if path = "/orchestrate/review-staged-tasks" then some "reviewStagedTasks"
  else if path = "/orchestrate/enrich-task" then some "enrichTask"
  else if path = "/orchestrate/webhook" then
    some (match req.event with
      | some "taskCreated" => "webhookTaskCreated"
      | some "taskUpdated" => "webhookTaskUpdated"
      | some "projectCreated" => "webhookProjectCreated"
      | _ => "webhookGeneric")
  else none

/-- Orchestrator.handleRequest: parse the body (a POST with an unparsable
body yields the 400 error envelope), route on the path (unknown routes
yield the 404 error envelope), run the flow through
AgentManager.executeFlow, persist the flow status — state completed on any
non-throwing route, with the sync route also appending to sync_log — and
wrap the outcome in the success envelope.  An exception escaping the route
handler (only an unknown flow name escapes executeFlow) is caught, logged
as state failed, and wrapped in the 500 error envelope.  The body is
parameterised by the flow table, the agent registry and the step
invocation behaviour. -/
def handleRequest {α : Type} (flows : List (String × List StepDef))
    (agents : List String) (invoke : Nat → StepDef → Except String α)
    (orchFlowId innerFlowId : String) (now : Nat) (path method : String)
    (body : Option OrchRequest) (db : LedgerDb) : OrchResponse α × LedgerDb :=
  if method = "POST" ∧ body = none then
    (createErrorResponse α "Invalid request body" 400 orchFlowId now, db)
  else
    let req := if method = "POST" then body.getD {} else {}
    match routeFlowName path req with
    | none => (createErrorResponse α "Invalid orchestration route" 404 orchFlowId now, db)
    | some flowName =>
        match executeFlow flows agents invoke innerFlowId flowName with
        | Except.error e =>
            (createErrorResponse α e 500 orchFlowId now,
             { db with agent_status := logOperation orchFlowId "unknown" "failed" now db.agent_status })
        | Except.ok (res, _) =>
            let db1 :=
              if path = "/orchestrate/sync" then
                { db with sync_log := db.sync_log ++ [(now, res.success)] }
              else db
            (createSuccessResponse res orchFlowId now,
             { db1 with agent_status := logOperation orchFlowId req.flowName "completed" now db1.agent_status })

/-- The invocation behaviour whose second step always fails. -/
def failSecondStep : Nat → StepDef → Except String Nat :=
  fun i _ => if i = 1 then Except.error "step 2 failed" else Except.ok 0

/-- Claim C5, counterexample: running the 3-step newProject flow whose
second step always fails does preserve the first step's result
(results.length is 1) and marks the flow result unsuccessful, but the
persisted flow-status record carries state completed, not failed —
executeFlow catches the step failure and returns it as a value, so the
Orchestrator's failure branch (state failed) never runs for a step
failure. -/
theorem failed_flow_persists_completed_state :
    ((handleRequest builtinFlows builtinAgents failSecondStep "flow-3" "uuid-3" 9
          "/orchestrate/new-project" "POST" (some { flowName := "newProject" })
          { agent_status := [], sync_log := [] }).1.result =
        some { success := false, flowId := "uuid-3", results := [0],
               error := some "step 2 failed" }) ∧
      (handleRequest builtinFlows builtinAgents failSecondStep "flow-3" "uuid-3" 9
          "/orchestrate/new-project" "POST" (some { flowName := "newProject" })
          { agent_status := [], sync_log := [] }).2.agent_status =
        [{ flow_id := "flow-3", step_name := "newProject", state := "completed",
           updated_at := 9 }] := by
  constructor
  · rfl
  · rfl

/-- Claim C5 as amended: aborting the newProject flow at its second step
preserves the first step's result and reports failure in the returned
OrchestrationResult, and the orchestrator persists the flow status with
state completed — not failed — because executeFlow catches step failures
and returns them as values. -/
theorem flow_abort_preserves_prefix {α : Type} (invoke : Nat → StepDef → Except String α)
    (r0 : α) (err : String) (fid iid : String) (now : Nat) (db : LedgerDb)
    (h0 : invoke 0 tplStep = Except.ok r0)
    (h1 : invoke 1 projStep = Except.error err) :
    (handleRequest builtinFlows builtinAgents invoke fid iid now
          "/orchestrate/new-project" "POST" (some { flowName := "newProject" }) db).1.result =
        some { success := false, flowId := iid, results := [r0], error := some err } ∧
      (handleRequest builtinFlows builtinAgents invoke fid iid now
          "/orchestrate/new-project" "POST" (some { flowName := "newProject" }) db).2.agent_status =
        logOperation fid "newProject" "completed" now db.agent_status := by
  have hsteps : execSteps builtinAgents invoke [tplStep, projStep, validateStep] 0 [] [] =
      ([r0], [0, 1], some err) := by
    rw [execSteps.eq_def]
    dsimp only
    rw [if_pos (show builtinAgents.contains tplStep.agent = true from rfl)]
    rw [h0]
    dsimp only
    rw [execSteps.eq_def]
    dsimp only
    rw [if_pos (show builtinAgents.contains projStep.agent = true from rfl)]
    rw [h1]
    simp
  have hexec : executeFlow builtinFlows builtinAgents invoke iid "newProject" =
      Except.ok ({ success := false, flowId := iid, results := [r0], error := some err },
        [0, 1]) := by
    unfold executeFlow
    have hlook : lookupFlow builtinFlows "newProject" =
        some [tplStep, projStep, validateStep] := rfl
    rw [hlook]
    dsimp only
    rw [hsteps]
  constructor
  · simp [handleRequest, routeFlowName, hexec, createSuccessResponse]
  · simp [handleRequest, routeFlowName, hexec]

/-- Witness for the amended claim C5 at the concrete always-failing second
step. -/
theorem flow_abort_preserves_prefix_witness :
    (handleRequest builtinFlows builtinAgents failSecondStep "flow-4" "uuid-4" 9
          "/orchestrate/new-project" "POST" (some { flowName := "newProject" })
          { agent_status := [], sync_log := [] }).1.result =
        some { success := false, flowId := "uuid-4", results := [0],
               error := some "step 2 failed" } ∧
      (handleRequest builtinFlows builtinAgents failSecondStep "flow-4" "uuid-4" 9
          "/orchestrate/new-project" "POST" (some { flowName := "newProject" })
          { agent_status := [], sync_log := [] }).2.agent_status =
        logOperation "flow-4" "newProject" "completed" 9 [] :=
  flow_abort_preserves_prefix failSecondStep 0 "step 2 failed" "flow-4" "uuid-4" 9
    { agent_status := [], sync_log := [] } rfl rfl

/-- The envelope well-formedness of an OrchestrationResponse: it carries
the generated flow id and the timestamp, and exactly one of results and
error message according to the success flag. -/
def envelopeOk {α : Type} (flowId : String) (now : Nat) (e : OrchResponse α) : Prop :=
  e.flowId = flowId ∧ e.timestamp = now ∧
    (e.success = true → e.error = none ∧ e.result ≠ none) ∧
    (e.success = false → e.result = none ∧ e.error ≠ none)

/-- Claim C9: for every inbound orchestration request — any path, method,
body-parse outcome, flow table, agent registry and step behaviour — the
Orchestrator's handleRequest returns a well-formed success or failure
envelope carrying the flow id and timestamp, and either results or an
error message; every exception raised inside (including the unknown-flow
throw escaping executeFlow) is caught and converted, never propagated. -/
theorem handleRequest_always_envelope {α : Type}
    (flows : List (String × List StepDef)) (agents : List String)
    (invoke : Nat → StepDef → Except String α) (fid iid : String) (now : Nat)
    (path method : String) (body : Option OrchRequest) (db : LedgerDb) :
    envelopeOk fid now (handleRequest flows agents invoke fid iid now path method body db).1 := by
  unfold envelopeOk handleRequest
  by_cases hb : method = "POST" ∧ body = none
  · rw [if_pos hb]
    simp [createErrorResponse]
  · rw [if_neg hb]
    dsimp only
    cases hroute : routeFlowName path
        (if method = "POST" then body.getD { flowName := "unknown", event := none }
         else { flowName := "unknown", event := none }) with
    | none => simp [hroute, createErrorResponse]
    | some fname =>
        cases hexec : executeFlow flows agents invoke iid fname with
        | error e => simp [hroute, hexec, createErrorResponse]
        | ok p =>
            obtain ⟨res, tr⟩ := p
            simp [hroute, hexec, createSuccessResponse]

/-- Witness for claim C9 at a concrete sync request against the built-in
flow table. -/
theorem handleRequest_always_envelope_witness :
    envelopeOk "flow-5" 3 (handleRequest builtinFlows builtinAgents
        (fun _ _ => (Except.ok 0 : Except String Nat)) "flow-5" "uuid-5" 3
        "/orchestrate/sync" "POST" (some { flowName := "sync" })
        { agent_status := [], sync_log := [] }).1 :=
  handleRequest_always_envelope builtinFlows builtinAgents
    (fun _ _ => (Except.ok 0 : Except String Nat)) "flow-5" "uuid-5" 3
    "/orchestrate/sync" "POST" (some { flowName := "sync" })
    { agent_status := [], sync_log := [] }

end PMO
